import Mathlib

/-!
Shallow embedding of the price-dashboard reconciliation, pricing and
batch-propagation core (Cloudflare worker `part_001` and browser
`assets/script.js`).

Numbers are modelled by `ℚ`; a JavaScript `number | null` (with `NaN`
collapsed into the null case, as the code always coalesces `NaN` away
with `|| null` before storing) is `Option ℚ`.  `parseFloat` / `parseInt`
are opaque cell parsers passed in as parameters (`none` = `NaN`).
External network effects of the worker are modelled by an oracle
environment plus an explicit event trace.
-/

namespace PriceDash

/-- Models the JavaScript expression `x || null` applied to a
`number | null | undefined` value: `0`, `NaN`, `null` and `undefined`
are all falsy and collapse to `null`. -/
def jsOrNumNull (o : Option ℚ) : Option ℚ :=
  match o with
  | some v => if v = 0 then none else some v
  | none => none

/-- Same as `jsOrNumNull` for integer results of `parseInt`. -/
def jsOrIntNull (o : Option ℤ) : Option ℤ :=
  match o with
  | some v => if v = 0 then none else some v
  | none => none

/-- ASCII lowercasing of one character (JavaScript `toLowerCase` on the
ASCII header strings the parsers compare against). -/
def jsCharToLower (c : Char) : Char :=
  if 65 ≤ c.toNat ∧ c.toNat ≤ 90 then Char.ofNat (c.toNat + 32) else c

/-- Models `String.prototype.toLowerCase` (ASCII range). -/
def jsToLower (s : String) : String :=
  String.mk (s.data.map jsCharToLower)

/-- Substring occurrence over character lists (structural recursion). -/
def containsAux (pat : List Char) : List Char → Bool
  | [] => pat.isEmpty
  | c :: cs => pat.isPrefixOf (c :: cs) || containsAux pat cs

/-- Models JavaScript `String.prototype.includes`. -/
def containsStr (s pat : String) : Bool :=
  containsAux pat.data s.data

/-- JavaScript whitespace test for `trim` (ASCII whitespace). -/
def isJsSpace (c : Char) : Bool :=
  c == ' ' || c == '\t' || c == '\n' || c == '\r'

/-- Models `String.prototype.trim`. -/
def jsTrim (s : String) : String :=
  String.mk (((s.data.dropWhile isJsSpace).reverse.dropWhile isJsSpace).reverse)

/-- Models `row[idx]` where `idx` is the result of `findIndex`
(`none` = `-1`) : an out-of-range or missing index reads `undefined`
(= `none`). -/
def getCellOpt (row : List String) (idx : Option Nat) : Option String :=
  idx.bind (fun i => row[i]?)

/-- Models `row[idx] || ''`. -/
def getCellStr (row : List String) (idx : Option Nat) : String :=
  (getCellOpt row idx).getD ""

/-! ## Record Parser (worker `parseTradeIdSheet`, `parseDigitalIdSheet`) -/

/-- A record parsed from the Trade-Id sheet. -/
structure TradeItem where
  productId : String
  name : String
  price : Option ℚ
  sku : String
  stock : Option ℤ
deriving DecidableEq, Repr

/-- A record parsed from the Digital-Id sheet (`name`/`description`
are only populated when `includeDescription` is set). -/
structure DigitalItem where
  sku : String
  price : Option ℚ
  name : Option String := none
  description : Option String := none
deriving DecidableEq, Repr

/-- The row-keeping policy shared by both sheet parsers:
`item.sku && item.price !== -1`. -/
def tradeKeep (it : TradeItem) : Bool :=
  decide (it.sku ≠ "" ∧ it.price ≠ some (-1))

/-- The row-keeping policy of the Digital-Id parser. -/
def digitalKeep (it : DigitalItem) : Bool :=
  decide (it.sku ≠ "" ∧ it.price ≠ some (-1))

/-- Column indices located in the Trade-Id header row. -/
structure TradeCols where
  idIdx : Option Nat
  nameIdx : Option Nat
  priceIdx : Option Nat
  skuIdx : Option Nat
  stockIdx : Option Nat

/-- Header lookup of `parseTradeIdSheet` (`findIndex` over lowercased
headers; `none` models `-1`). -/
def tradeCols (headers : List String) : TradeCols where
  idIdx := headers.findIdx? (fun h => containsStr (jsToLower h) "product id")
  nameIdx := headers.findIdx? (fun h => containsStr (jsToLower h) "product name")
  priceIdx := headers.findIdx? (fun h => jsToLower h == "price")
  skuIdx := headers.findIdx? (fun h => jsToLower h == "sku")
  stockIdx := headers.findIdx? (fun h => jsToLower h == "stock")

/-- The per-row body of `parseTradeIdSheet`'s `map` callback. -/
def tradeRowItem (pf : String → Option ℚ) (pi : String → Option ℤ)
    (headers row : List String) : TradeItem :=
  let c := tradeCols headers
  { productId := getCellStr row c.idIdx
    name := getCellStr row c.nameIdx
    price := jsOrNumNull ((getCellOpt row c.priceIdx).bind pf)
    sku := getCellStr row c.skuIdx
    stock := jsOrIntNull ((getCellOpt row c.stockIdx).bind pi) }

/-- Embedding of `parseTradeIdSheet(rows)`; `pf`/`pi` model
`parseFloat`/`parseInt` on a cell string (`none` = `NaN`). -/
def parseTradeIdSheet (pf : String → Option ℚ) (pi : String → Option ℤ)
    (rows : List (List String)) : List TradeItem :=
  match rows with
  | [] => []
  | headers :: dataRows =>
    if dataRows.isEmpty then []
    else (dataRows.map (tradeRowItem pf pi headers)).filter tradeKeep

/-- Models `.replace(/[£$€,]/g, '').trim()`. -/
def stripCurrency (s : String) : String :=
  jsTrim (String.mk (s.data.filter
    (fun ch => !(ch == '£' || ch == '$' || ch == '€' || ch == ','))))

/-- Column indices located in the Digital-Id header row. -/
structure DigitalCols where
  priceIdx : Option Nat
  skuIdx : Option Nat
  descIdx : Option Nat
  nameIdx : Option Nat

/-- Header lookup of `parseDigitalIdSheet`. -/
def digitalCols (headers : List String) : DigitalCols where
  priceIdx := headers.findIdx? (fun h => jsToLower h == "price")
  skuIdx := headers.findIdx? (fun h => jsToLower h == "sku")
  descIdx := headers.findIdx? (fun h => jsToLower h == "description")
  nameIdx := headers.findIdx? (fun h => jsToLower h == "name")

/-- The per-row body of `parseDigitalIdSheet`'s `map` callback:
the price cell is defaulted to `''`, currency-stripped and trimmed
before `parseFloat`. -/
def digitalRowItem (pf : String → Option ℚ) (includeDescription : Bool)
    (headers row : List String) : DigitalItem :=
  let c := digitalCols headers
  let priceStr := stripCurrency (getCellStr row c.priceIdx)
  let base : DigitalItem :=
    { sku := getCellStr row c.skuIdx
      price := jsOrNumNull (pf priceStr) }
  if includeDescription then
    { base with
      name := some (getCellStr row c.nameIdx)
      description := some (getCellStr row c.descIdx) }
  else base

/-- Embedding of `parseDigitalIdSheet(rows, includeDescription)`. -/
def parseDigitalIdSheet (pf : String → Option ℚ)
    (rows : List (List String)) (includeDescription : Bool) : List DigitalItem :=
  match rows with
  | [] => []
  | headers :: dataRows =>
    if dataRows.isEmpty then []
    else (dataRows.map (digitalRowItem pf includeDescription headers)).filter digitalKeep

/-! ## Reconciler (worker `combineData`) -/

/-- The `set1` component of a combined record. -/
structure Set1Info where
  name : String
  cost : Option ℚ
  stock : Option ℤ
deriving DecidableEq, Repr

/-- The `set2` component of a combined record. -/
structure Set2Info where
  cost : Option ℚ
deriving DecidableEq, Repr

/-- A merged record produced by `combineData`. -/
structure CombinedItem where
  sku : String
  productId : String
  set1 : Set1Info
  set2 : Set2Info
deriving DecidableEq, Repr

/-- `digitalIdMap.get(sku) || null`: the map keeps the price of the
first Digital-Id occurrence of the key; a missing key reads
`undefined`; `|| null` then collapses `undefined`, `null` and `0`
to `null`. -/
def set2Lookup (digital : List DigitalItem) (k : String) : Option ℚ :=
  match digital.find? (fun d => d.sku == k) with
  | none => none
  | some d => jsOrNumNull d.price

/-- The `Set`-based first-occurrence deduplication loop of
`combineData`, with the set of already-seen SKUs made explicit. -/
def dedupeGo (seen : List String) : List TradeItem → List TradeItem
  | [] => []
  | t :: ts =>
    if t.sku ∈ seen then dedupeGo seen ts
    else t :: dedupeGo (t.sku :: seen) ts

/-- Deduplicate the Trade-Id list by SKU, keeping first occurrences. -/
def dedupeBySku (l : List TradeItem) : List TradeItem :=
  dedupeGo [] l

/-- Embedding of `combineData(tradeIdData, digitalIdData)`. -/
def combineData (tradeId : List TradeItem) (digital : List DigitalItem) :
    List CombinedItem :=
  ((dedupeBySku tradeId).map (fun it =>
    { sku := it.sku
      productId := it.productId
      set1 := { name := it.name, cost := it.price, stock := it.stock }
      set2 := { cost := set2Lookup digital it.sku } : CombinedItem })).filter
    (fun c => c.set1.cost.isSome && c.set2.cost.isSome)

/-! ## Pricing Engine (`script.js`) -/

/-- The dropdown selection driving `calculateIdentityPrice`: the empty
string (falsy), `'digitalId'`, a string matching `/^\+(\d+)$/` carrying
the parsed markup percentage, or any other string. -/
inductive Selection where
  | empty
  | digitalId
  | markup (n : ℕ)
  | other
deriving DecidableEq, Repr

/-- Embedding of `gbpToEur(gbpAmount)` with the global `exchangeRate`
made an explicit argument; `!exchangeRate` is true for `null` and `0`. -/
def gbpToEur (exchangeRate : Option ℚ) (gbpAmount : Option ℚ) : Option ℚ :=
  match gbpAmount, exchangeRate with
  | none, _ => none
  | some _, none => none
  | some g, some r => if r = 0 then none else some (g / r)

/-- JavaScript `Math.round`: round half toward positive infinity. -/
def jsRound (x : ℚ) : ℤ :=
  ⌊x + 1 / 2⌋

/-- Embedding of `roundToNearest(value, nearest)`. -/
def roundToNearest (value nearest : ℚ) : ℚ :=
  if nearest = 0 then value
  else (jsRound (value / nearest) : ℚ) * nearest

/-- Modelled from the spec: round-half-away-from-zero, the rounding
mode §4.3 of the spec prescribes; used only to compare against the
code's `roundToNearest`. -/
def roundHalfAwayFromZero (x : ℚ) : ℤ :=
  if 0 ≤ x then ⌊x + 1 / 2⌋ else -⌊-x + 1 / 2⌋

/-- Modelled from the spec: the rounding step as §4.3 states it,
`round(price / increment) × increment` with round-half-away-from-zero. -/
def roundToNearestSpec (price inc : ℚ) : ℚ :=
  if 0 < inc then (roundHalfAwayFromZero (price / inc) : ℚ) * inc
  else price

/-- Embedding of `calculateIdentityPrice(product, selection)` with the
globals `exchangeRate` and `roundingValue` made explicit arguments. -/
def calculateIdentityPrice (exchangeRate : Option ℚ) (roundingValue : ℚ)
    (product : CombinedItem) (selection : Selection) : Option ℚ :=
  match selection with
  | .empty => none
  | _ =>
    match product.set2.cost with
    | none => none
    | some digitalIdGbp =>
      let price : Option ℚ :=
        match selection with
        | .digitalId => gbpToEur exchangeRate (some digitalIdGbp)
        | .markup n =>
          match gbpToEur exchangeRate (some digitalIdGbp) with
          | none => none
          | some eurPrice => some (eurPrice * (1 + (n : ℚ) / 100))
        | _ => none
      match price with
      | none => none
      | some p =>
        if 0 < roundingValue then some (roundToNearest p roundingValue)
        else some p

/-- Embedding of `getIdentityPrice(sku, product)` with the global
`identityOverrides` / `identitySelections` maps explicit; a missing
selection reads `''` (`identitySelections[sku] || ''`). -/
def getIdentityPrice (overrides : String → Option ℚ)
    (selections : String → Option Selection)
    (exchangeRate : Option ℚ) (roundingValue : ℚ)
    (sku : String) (product : CombinedItem) : Option ℚ :=
  match overrides sku with
  | some v => some v
  | none =>
    calculateIdentityPrice exchangeRate roundingValue product
      ((selections sku).getD .empty)

/-- Embedding of `updateIdentityFromInput(sku, value)` as a map
transformer: a parse to a non-negative number sets the override
(including `0`), the empty string deletes it, anything else leaves
the map unchanged. -/
def updateIdentityFromInput (pf : String → Option ℚ)
    (overrides : String → Option ℚ) (sku val : String) :
    String → Option ℚ :=
  match pf val with
  | some n =>
    if 0 ≤ n then (fun k => if k = sku then some n else overrides k)
    else if val = "" then (fun k => if k = sku then none else overrides k)
    else overrides
  | none =>
    if val = "" then (fun k => if k = sku then none else overrides k)
    else overrides

/-! ## Batch Propagator (worker `/api/zoho/batch-update`) -/

/-- One item of a batch-update request body. -/
structure ZohoBatchItem where
  sku : String
  costPrice : Option ℚ
  sellingPrice : Option ℚ
deriving DecidableEq, Repr

/-- One per-item entry of the `results` array. -/
structure ZohoBatchResult where
  sku : String
  success : Bool
  error : Option String
deriving DecidableEq, Repr

/-- The handler's response: either a single top-level error object
(with its HTTP status) or the per-item `results` list. -/
inductive BatchResponse where
  | topError (message : String) (status : ℕ)
  | results (rs : List ZohoBatchResult)
deriving DecidableEq, Repr

/-- An observable call to an external system. -/
inductive ZEvent where
  | tokenReq
  | search (sku : String)
  | update (itemId : String)
deriving DecidableEq, Repr

/-- The external world seen by the handler: `token` is the outcome of
`getZohoAccessToken`, `searchItemBySku` that of `zohoSearchItemBySku`
(`Except.error` = thrown, `ok none` = no item found, `ok (some id)` =
found item id), `updateItemPrices` that of `zohoUpdateItemPrices`. -/
structure ZohoEnv where
  token : Except String String
  searchItemBySku : String → String → Except String (Option String)
  updateItemPrices : String → String → Option ℚ → Option ℚ → Except String Unit

/-- The body of the handler's per-item `try { ... } catch` block,
returning the pushed result together with the external calls made. -/
def processBatchItem (env : ZohoEnv) (tok : String) (item : ZohoBatchItem) :
    ZohoBatchResult × List ZEvent :=
  match env.searchItemBySku tok item.sku with
  | .error e => (⟨item.sku, false, some e⟩, [.search item.sku])
  | .ok none => (⟨item.sku, false, some "Item not found"⟩, [.search item.sku])
  | .ok (some itemId) =>
    match env.updateItemPrices tok itemId item.costPrice item.sellingPrice with
    | .error e => (⟨item.sku, false, some e⟩, [.search item.sku, .update itemId])
    | .ok _ => (⟨item.sku, true, none⟩, [.search item.sku, .update itemId])

/-- Embedding of the `/api/zoho/batch-update` handler: the empty (or
missing) items check, then token acquisition (whose failure escapes to
the outer `catch` and becomes a single 500 error), then the sequential
per-item loop.  The second component is the trace of external calls. -/
def batchUpdateHandler (env : ZohoEnv) (items : List ZohoBatchItem) :
    BatchResponse × List ZEvent :=
  if items.isEmpty then (.topError "Items array is required" 400, [])
  else
    match env.token with
    | .error e => (.topError e 500, [.tokenReq])
    | .ok tok =>
      let steps := items.map (processBatchItem env tok)
      (.results (steps.map Prod.fst), .tokenReq :: (steps.map Prod.snd).flatten)

/-! ## Demonstration data used by concrete instances and witnesses -/

def prodDemo : CombinedItem :=
  { sku := "A", productId := "P", set1 := ⟨"N", some 10, some 5⟩, set2 := ⟨some 12⟩ }

def ovDemo : String → Option ℚ := fun k => if k = "A" then some 0 else none

def selsDemo : String → Option Selection := fun _ => some Selection.digitalId

def zohoEnvDemo : ZohoEnv :=
  { token := .ok "tok"
    searchItemBySku := fun _ sku =>
      if sku = "S2" then .error "boom"
      else .ok (some ("id-" ++ sku))
    updateItemPrices := fun _ _ _ _ => .ok () }

def itemsDemo : List ZohoBatchItem :=
  [⟨"S1", some 1, some 2⟩, ⟨"S2", some 1, some 2⟩, ⟨"S3", some 1, some 2⟩]

def zohoEnvNoToken : ZohoEnv :=
  { zohoEnvDemo with token := .error "invalid_client" }

def pfDemo : String → Option ℚ := fun s =>
  if s = "10" then some 10 else if s = "12" then some 12
  else if s = "0" then some 0 else if s = "-1" then some (-1)
  else if s = "5" then some 5 else none

def piDemo : String → Option ℤ := fun s => if s = "5" then some 5 else none

def tradeHeaderDemo : List String := ["Product ID", "Product Name", "Price", "SKU", "Stock"]

def tradeRowsDemo : List (List String) :=
  [["P1", "Widget", "abc", "A", "5"],
   ["P2", "Gadget", "-1", "B", "5"],
   ["P3", "Thing", "10", "", "5"],
   ["P4", "Blob", "0", "C", "x"]]

def tradeGridDemo : List (List String) := tradeHeaderDemo :: tradeRowsDemo

def digitalGridDemo : List (List String) :=
  [["_timestamp", "image", "name", "price", "sku", "description", "url"],
   ["t", "i", "n", "£12", "A", "d", "u"],
   ["t", "i", "n", "€0", "B", "d", "u"]]

def tradeA10 : TradeItem := ⟨"P1", "N1", some 10, "A", none⟩

def tradeA99 : TradeItem := ⟨"P2", "N2", some 99, "A", none⟩

def digitalA12 : DigitalItem := ⟨"A", some 12, none, none⟩

def digitalA0 : DigitalItem := ⟨"A", some 0, none, none⟩

/-! ## Helper lemmas -/

theorem dedupeGo_sublist (seen : List String) (l : List TradeItem) :
    (dedupeGo seen l).Sublist l := by
  induction l generalizing seen with
  | nil => simp [dedupeGo]
  | cons t ts ih =>
    simp only [dedupeGo]
    split
    · exact (ih seen).cons t
    · exact (ih (t.sku :: seen)).cons₂ t

theorem dedupeGo_mem_spec {seen : List String} {l : List TradeItem} {t : TradeItem}
    (h : t ∈ dedupeGo seen l) :
    t.sku ∉ seen ∧ l.find? (fun x => x.sku == t.sku) = some t := by
  induction l generalizing seen with
  | nil => simp [dedupeGo] at h
  | cons u us ih =>
    simp only [dedupeGo] at h
    split at h
    · rcases ih h with ⟨hn, hf⟩
      refine ⟨hn, ?_⟩
      rw [List.find?_cons_of_neg, hf]
      intro hb
      exact hn (by simpa using (beq_iff_eq.mp hb) ▸ ‹u.sku ∈ seen›)
    · rcases List.mem_cons.mp h with rfl | hmem
      · exact ⟨‹t.sku ∉ seen›, List.find?_cons_of_pos us (by simp)⟩
      · rcases ih hmem with ⟨hn, hf⟩
        have hne : t.sku ≠ u.sku := fun he => hn (by simp [he])
        have hn2 : t.sku ∉ seen := fun he => hn (by simp [he])
        refine ⟨hn2, ?_⟩
        rw [List.find?_cons_of_neg, hf]
        simpa using fun he => hne he.symm

theorem dedupeGo_nodup (seen : List String) (l : List TradeItem) :
    ((dedupeGo seen l).map (fun t => t.sku)).Nodup := by
  induction l generalizing seen with
  | nil => simp [dedupeGo]
  | cons u us ih =>
    simp only [dedupeGo]
    split
    · exact ih seen
    · simp only [List.map_cons, List.nodup_cons]
      refine ⟨?_, ih (u.sku :: seen)⟩
      intro hmem
      rcases List.mem_map.mp hmem with ⟨v, hv, he⟩
      exact (dedupeGo_mem_spec hv).1 (by simp [he])

theorem dedupeGo_complete {seen : List String} {l : List TradeItem} {k : String}
    {t : TradeItem} (hk : k ∉ seen)
    (h : l.find? (fun x => x.sku == k) = some t) : t ∈ dedupeGo seen l := by
  induction l generalizing seen with
  | nil => simp at h
  | cons u us ih =>
    by_cases hu : u.sku = k
    · rw [List.find?_cons_of_pos us (by simp [hu])] at h
      cases h
      simp only [dedupeGo]
      rw [if_neg (hu ▸ hk)]
      exact List.mem_cons_self _ _
    · rw [List.find?_cons_of_neg us (by simp [hu])] at h
      simp only [dedupeGo]
      split
      · exact ih hk h
      · refine List.mem_cons_of_mem u (ih ?_ h)
        simp only [List.mem_cons, not_or]
        exact ⟨fun he => hu he.symm, hk⟩

theorem combineData_mem {p : List TradeItem} {s : List DigitalItem} {m : CombinedItem}
    (h : m ∈ combineData p s) :
    m.set1.cost.isSome ∧ m.set2.cost.isSome ∧
    p.find? (fun t => t.sku == m.sku) =
      some ⟨m.productId, m.set1.name, m.set1.cost, m.sku, m.set1.stock⟩ ∧
    m.set2.cost = set2Lookup s m.sku := by
  unfold combineData at h
  rcases List.mem_filter.mp h with ⟨hm, hpred⟩
  rcases List.mem_map.mp hm with ⟨it, hit, rfl⟩
  unfold dedupeBySku at hit
  have hspec := dedupeGo_mem_spec hit
  simp only [Bool.and_eq_true] at hpred
  exact ⟨hpred.1, hpred.2, hspec.2, rfl⟩

theorem combineData_skus_nodup (p : List TradeItem) (s : List DigitalItem) :
    ((combineData p s).map (fun m => m.sku)).Nodup := by
  unfold combineData
  refine List.Nodup.sublist (List.Sublist.map _ (List.filter_sublist _)) ?_
  rw [List.map_map]
  exact dedupeGo_nodup [] p

theorem combineData_skus_sublist (p : List TradeItem) (s : List DigitalItem) :
    ((combineData p s).map (fun m => m.sku)).Sublist (p.map (fun t => t.sku)) := by
  unfold combineData
  refine List.Sublist.trans (List.Sublist.map _ (List.filter_sublist _)) ?_
  rw [List.map_map]
  exact List.Sublist.map _ (dedupeGo_sublist [] p)

theorem combineData_complete {p : List TradeItem} {s : List DigitalItem}
    {k : String} {t : TradeItem}
    (h : p.find? (fun x => x.sku == k) = some t)
    (h1 : t.price.isSome) (h2 : (set2Lookup s k).isSome) :
    ∃ m ∈ combineData p s, m.sku = k := by
  have hk : t.sku = k := by simpa using List.find?_some h
  have hmem : t ∈ dedupeBySku p := dedupeGo_complete (by simp) h
  refine ⟨{ sku := t.sku, productId := t.productId,
            set1 := { name := t.name, cost := t.price, stock := t.stock },
            set2 := { cost := set2Lookup s t.sku } }, ?_, hk⟩
  unfold combineData
  refine List.mem_filter.mpr ⟨List.mem_map.mpr ⟨t, hmem, rfl⟩, ?_⟩
  simp only [Bool.and_eq_true]
  exact ⟨h1, hk ▸ h2⟩

theorem jsOrNumNull_ne_some_zero (o : Option ℚ) : jsOrNumNull o ≠ some 0 := by
  unfold jsOrNumNull
  match o with
  | none => simp
  | some v =>
    by_cases hv : v = 0 <;> simp [hv]

theorem set2Lookup_ne_some_zero (s : List DigitalItem) (k : String) :
    set2Lookup s k ≠ some 0 := by
  unfold set2Lookup
  rcases hf : List.find? (fun d => d.sku == k) s with _ | d <;> simp only [hf]
  · simp
  · exact jsOrNumNull_ne_some_zero d.price

theorem parseTradeIdSheet_price_ne_zero {pf : String → Option ℚ}
    {pi : String → Option ℤ} {rows : List (List String)} {it : TradeItem}
    (h : it ∈ parseTradeIdSheet pf pi rows) : it.price ≠ some 0 := by
  match rows with
  | [] => simp [parseTradeIdSheet] at h
  | headers :: dataRows =>
    simp only [parseTradeIdSheet] at h
    split at h
    · simp at h
    · rcases List.mem_filter.mp h with ⟨hm, _⟩
      rcases List.mem_map.mp hm with ⟨row, _, rfl⟩
      exact jsOrNumNull_ne_some_zero _

theorem parseDigitalIdSheet_price_ne_zero {pf : String → Option ℚ}
    {rows : List (List String)} {incl : Bool} {it : DigitalItem}
    (h : it ∈ parseDigitalIdSheet pf rows incl) : it.price ≠ some 0 := by
  match rows with
  | [] => simp [parseDigitalIdSheet] at h
  | headers :: dataRows =>
    simp only [parseDigitalIdSheet] at h
    split at h
    · simp at h
    · rcases List.mem_filter.mp h with ⟨hm, _⟩
      rcases List.mem_map.mp hm with ⟨row, _, rfl⟩
      unfold digitalRowItem
      split <;> exact jsOrNumNull_ne_some_zero _

theorem parseTradeIdSheet_count (pf : String → Option ℚ) (pi : String → Option ℤ)
    (headers : List String) (dataRows : List (List String)) (it : TradeItem) :
    (parseTradeIdSheet pf pi (headers :: dataRows)).count it =
      if tradeKeep it then (dataRows.map (tradeRowItem pf pi headers)).count it
      else 0 := by
  simp only [parseTradeIdSheet]
  split
  · rename_i hemp
    simp [List.isEmpty_iff.mp hemp]
  · by_cases hk : tradeKeep it = true
    · rw [if_pos hk, List.count_filter hk]
    · rw [if_neg hk, List.count_eq_zero]
      intro hmem
      exact hk (List.mem_filter.mp hmem).2

theorem parseTradeIdSheet_sublist (pf : String → Option ℚ) (pi : String → Option ℤ)
    (headers : List String) (dataRows : List (List String)) :
    (parseTradeIdSheet pf pi (headers :: dataRows)).Sublist
      (dataRows.map (tradeRowItem pf pi headers)) := by
  simp only [parseTradeIdSheet]
  split
  · simp
  · exact List.filter_sublist _

theorem parseTradeIdSheet_keep {pf : String → Option ℚ} {pi : String → Option ℤ}
    {rows : List (List String)} {it : TradeItem}
    (h : it ∈ parseTradeIdSheet pf pi rows) :
    it.sku ≠ "" ∧ it.price ≠ some (-1) := by
  match rows with
  | [] => simp [parseTradeIdSheet] at h
  | headers :: dataRows =>
    simp only [parseTradeIdSheet] at h
    split at h
    · simp at h
    · exact of_decide_eq_true (List.mem_filter.mp h).2

theorem parseDigitalIdSheet_count (pf : String → Option ℚ) (incl : Bool)
    (headers : List String) (dataRows : List (List String)) (it : DigitalItem) :
    (parseDigitalIdSheet pf (headers :: dataRows) incl).count it =
      if digitalKeep it then (dataRows.map (digitalRowItem pf incl headers)).count it
      else 0 := by
  simp only [parseDigitalIdSheet]
  split
  · rename_i hemp
    simp [List.isEmpty_iff.mp hemp]
  · by_cases hk : digitalKeep it = true
    · rw [if_pos hk, List.count_filter hk]
    · rw [if_neg hk, List.count_eq_zero]
      intro hmem
      exact hk (List.mem_filter.mp hmem).2

theorem parseDigitalIdSheet_sublist (pf : String → Option ℚ) (incl : Bool)
    (headers : List String) (dataRows : List (List String)) :
    (parseDigitalIdSheet pf (headers :: dataRows) incl).Sublist
      (dataRows.map (digitalRowItem pf incl headers)) := by
  simp only [parseDigitalIdSheet]
  split
  · simp
  · exact List.filter_sublist _

theorem parseDigitalIdSheet_keep {pf : String → Option ℚ} {incl : Bool}
    {rows : List (List String)} {it : DigitalItem}
    (h : it ∈ parseDigitalIdSheet pf rows incl) :
    it.sku ≠ "" ∧ it.price ≠ some (-1) := by
  match rows with
  | [] => simp [parseDigitalIdSheet] at h
  | headers :: dataRows =>
    simp only [parseDigitalIdSheet] at h
    split at h
    · simp at h
    · exact of_decide_eq_true (List.mem_filter.mp h).2

theorem processBatchItem_search_mem (env : ZohoEnv) (tok : String)
    (it : ZohoBatchItem) : ZEvent.search it.sku ∈ (processBatchItem env tok it).2 := by
  unfold processBatchItem
  rcases hs : env.searchItemBySku tok it.sku with e | oid
  · simp
  · rcases oid with _ | id
    · simp
    · rcases hu : env.updateItemPrices tok id it.costPrice it.sellingPrice with e | u <;>
        simp [hu]

theorem processBatchItem_search_error {env : ZohoEnv} {tok : String}
    {it : ZohoBatchItem} {e : String}
    (h : env.searchItemBySku tok it.sku = .error e) :
    (processBatchItem env tok it).1 = ⟨it.sku, false, some e⟩ := by
  simp [processBatchItem, h]

theorem processBatchItem_not_found {env : ZohoEnv} {tok : String}
    {it : ZohoBatchItem}
    (h : env.searchItemBySku tok it.sku = .ok none) :
    (processBatchItem env tok it).1 = ⟨it.sku, false, some "Item not found"⟩ := by
  simp [processBatchItem, h]

theorem processBatchItem_update_error {env : ZohoEnv} {tok : String}
    {it : ZohoBatchItem} {itemId e : String}
    (h1 : env.searchItemBySku tok it.sku = .ok (some itemId))
    (h2 : env.updateItemPrices tok itemId it.costPrice it.sellingPrice = .error e) :
    (processBatchItem env tok it).1 = ⟨it.sku, false, some e⟩ := by
  simp [processBatchItem, h1, h2]

theorem batchUpdateHandler_ok {env : ZohoEnv} {items : List ZohoBatchItem}
    {tok : String} (htok : env.token = .ok tok) (hne : items ≠ []) :
    batchUpdateHandler env items =
      (.results (items.map (fun it => (processBatchItem env tok it).1)),
       .tokenReq :: (items.map (fun it => (processBatchItem env tok it).2)).flatten) := by
  match items, hne with
  | i :: is, _ =>
    unfold batchUpdateHandler
    rw [htok]
    simp [Function.comp_def]

theorem batchUpdateHandler_token_error {env : ZohoEnv} {items : List ZohoBatchItem}
    {e : String} (htok : env.token = .error e) (hne : items ≠ []) :
    batchUpdateHandler env items = (.topError e 500, [.tokenReq]) := by
  match items, hne with
  | i :: is, _ =>
    unfold batchUpdateHandler
    rw [htok]
    simp

theorem processBatchItem_sku (env : ZohoEnv) (tok : String) (it : ZohoBatchItem) :
    (processBatchItem env tok it).1.sku = it.sku := by
  unfold processBatchItem
  rcases hs : env.searchItemBySku tok it.sku with e | oid
  · simp
  · rcases oid with _ | id
    · simp
    · rcases hu : env.updateItemPrices tok id it.costPrice it.sellingPrice with e | u <;>
        simp [hu]

/-! ## Claim theorems -/

/-- C1 counterexample: the claim's "emits ... exactly when both the
primary cost and the matching secondary cost are non-null" fails when the
secondary cost is exactly `0`: both input costs are non-null, yet
`combineData` emits nothing, because `digitalIdMap.get(sku) || null`
coalesces the secondary cost `0` to `null`. -/
theorem c1_counterexample :
    tradeA10.price ≠ none ∧ digitalA0.price ≠ none ∧
    combineData [tradeA10] [digitalA0] = [] := by
  refine ⟨by simp [tradeA10], by simp [digitalA0], by decide⟩

/-- C1 (amended): `combineData` deduplicates each side by key keeping
the first occurrence in input order, never emits two records with the
same key, preserves the primary list's input order, and emits one record
per deduplicated primary record exactly when the primary cost is non-null
and the secondary first-occurrence cost is non-null after the lookup's
`|| null` coalescing (which also treats a secondary cost of `0` as
absent); the duplicate-primary scenario keeps cost `10` from the first
occurrence of key `A`. -/
theorem c1_reconcile_amended :
    (∀ (p : List TradeItem) (s : List DigitalItem),
      ((combineData p s).map (fun m => m.sku)).Nodup ∧
      ((combineData p s).map (fun m => m.sku)).Sublist (p.map (fun t => t.sku)) ∧
      (∀ m ∈ combineData p s,
        m.set1.cost.isSome ∧ m.set2.cost.isSome ∧
        p.find? (fun t => t.sku == m.sku) =
          some ⟨m.productId, m.set1.name, m.set1.cost, m.sku, m.set1.stock⟩ ∧
        m.set2.cost = set2Lookup s m.sku) ∧
      (∀ (k : String) (t : TradeItem),
        p.find? (fun x => x.sku == k) = some t → t.price.isSome →
        (set2Lookup s k).isSome → ∃ m ∈ combineData p s, m.sku = k)) ∧
    combineData [tradeA10, tradeA99] [digitalA12] =
      [{ sku := "A", productId := "P1", set1 := ⟨"N1", some 10, none⟩,
         set2 := ⟨some 12⟩ }] := by
  constructor
  · intro p s
    exact ⟨combineData_skus_nodup p s, combineData_skus_sublist p s,
      fun m hm => combineData_mem hm,
      fun k t hf h1 h2 => combineData_complete hf h1 h2⟩
  · decide

/-- Witness for C1 (amended): the duplicate-key primary list joined
with a matching secondary list emits a record for key `A`. -/
theorem c1_reconcile_amended_witness :
    ∃ m ∈ combineData [tradeA10, tradeA99] [digitalA12], m.sku = "A" :=
  (c1_reconcile_amended.1 [tradeA10, tradeA99] [digitalA12]).2.2.2 "A" tradeA10
    (by decide) (by decide) (by decide)

/-- C2: for a record with non-null secondary cost and a non-null,
non-zero fxRate, with rounding `0`, `calculateIdentityPrice` returns
`secondary.cost / fxRate` under the `digitalId` rule and
`(secondary.cost / fxRate) * (1 + n/100)` under markup `+n`; concretely,
secondary cost `12` at rate `1.2 = 6/5` gives `10` and, with `+20`,
`12`. -/
theorem c2_pricing_rules :
    (∀ (product : CombinedItem) (c f : ℚ) (n : ℕ),
      product.set2.cost = some c → f ≠ 0 →
      calculateIdentityPrice (some f) 0 product .digitalId = some (c / f) ∧
      calculateIdentityPrice (some f) 0 product (.markup n) =
        some (c / f * (1 + (n : ℚ) / 100))) ∧
    calculateIdentityPrice (some (6/5)) 0 prodDemo .digitalId = some 10 ∧
    calculateIdentityPrice (some (6/5)) 0 prodDemo (.markup 20) = some 12 := by
  refine ⟨?_, ?_, ?_⟩
  · intro product c f n hc hf
    constructor <;> simp [calculateIdentityPrice, gbpToEur, hc, hf]
  · simp [calculateIdentityPrice, prodDemo, gbpToEur]
    norm_num
  · simp [calculateIdentityPrice, prodDemo, gbpToEur]
    norm_num

/-- Witness for C2 at secondary cost `12`, fxRate `1`, markup `20`. -/
theorem c2_pricing_rules_witness :
    calculateIdentityPrice (some 1) 0 prodDemo .digitalId = some (12 / 1) ∧
    calculateIdentityPrice (some 1) 0 prodDemo (.markup 20) =
      some (12 / 1 * (1 + (20 : ℚ) / 100)) :=
  c2_pricing_rules.1 prodDemo 12 1 20 rfl one_ne_zero

/-- C3 counterexample: the code's rounding (`Math.round`, half toward
positive infinity) disagrees with the claim's round-half-away-from-zero
at price `-1/4` with increment `1/2`: the code yields `0`, the claim
demands `-1/2`. -/
theorem c3_counterexample :
    roundToNearest (-(1/4) : ℚ) (1/2) ≠ roundToNearestSpec (-(1/4)) (1/2) := by
  unfold roundToNearest roundToNearestSpec jsRound roundHalfAwayFromZero
  norm_num

/-- C3 (amended): for increment `> 0` the rounding step returns
`round(price / increment) * increment` where `round` is JavaScript's
`Math.round`, i.e. half rounded toward positive infinity; this agrees
with round-half-away-from-zero whenever the price is non-negative;
an increment of `0` leaves the price unchanged; with increment `0.50`,
`10.23` rounds to `10.00` and `10.26` rounds to `10.50`. -/
theorem c3_rounding_amended :
    (∀ price inc : ℚ, 0 < inc →
      roundToNearest price inc = (⌊price / inc + 1/2⌋ : ℚ) * inc) ∧
    (∀ price inc : ℚ, 0 ≤ price → 0 < inc →
      roundToNearest price inc = roundToNearestSpec price inc) ∧
    (∀ price : ℚ, roundToNearest price 0 = price) ∧
    roundToNearest (1023/100) (1/2) = 10 ∧
    roundToNearest (1026/100) (1/2) = 21/2 := by
  refine ⟨?_, ?_, ?_, ?_, ?_⟩
  · intro price inc h
    unfold roundToNearest jsRound
    rw [if_neg (ne_of_gt h)]
  · intro price inc hp hi
    unfold roundToNearest roundToNearestSpec jsRound roundHalfAwayFromZero
    rw [if_neg (ne_of_gt hi), if_pos hi, if_pos (div_nonneg hp (le_of_lt hi))]
  · intro price
    unfold roundToNearest
    simp
  · unfold roundToNearest jsRound
    norm_num
  · unfold roundToNearest jsRound
    norm_num

/-- Witness for C3 (amended) at price `10.23`, increment `0.50`. -/
theorem c3_rounding_amended_witness :
    roundToNearest (1023/100) (1/2) = roundToNearestSpec (1023/100) (1/2) :=
  c3_rounding_amended.2.1 (1023/100) (1/2) (by norm_num) (by norm_num)

/-- C4: both sheet parsers (total functions, so they never throw)
keep exactly the data rows whose key is non-empty and whose recorded
cost is not the sentinel `-1` — each such row contributes exactly one
output record (`count`), no other rows appear, and input order is kept
(`Sublist`); the concrete grids show an unparseable cost kept with a
null cost rather than dropped, and sentinel/empty-key rows excluded. -/
theorem c4_parser_policy :
    (∀ (pf : String → Option ℚ) (pi : String → Option ℤ)
       (headers : List String) (dataRows : List (List String)),
      (∀ it ∈ parseTradeIdSheet pf pi (headers :: dataRows),
        it.sku ≠ "" ∧ it.price ≠ some (-1)) ∧
      (∀ it, (parseTradeIdSheet pf pi (headers :: dataRows)).count it =
        if tradeKeep it then (dataRows.map (tradeRowItem pf pi headers)).count it
        else 0) ∧
      (parseTradeIdSheet pf pi (headers :: dataRows)).Sublist
        (dataRows.map (tradeRowItem pf pi headers)) ∧
      parseTradeIdSheet pf pi [] = []) ∧
    (∀ (pf : String → Option ℚ) (incl : Bool) (headers : List String)
       (dataRows : List (List String)),
      (∀ it ∈ parseDigitalIdSheet pf (headers :: dataRows) incl,
        it.sku ≠ "" ∧ it.price ≠ some (-1)) ∧
      (∀ it, (parseDigitalIdSheet pf (headers :: dataRows) incl).count it =
        if digitalKeep it then (dataRows.map (digitalRowItem pf incl headers)).count it
        else 0) ∧
      (parseDigitalIdSheet pf (headers :: dataRows) incl).Sublist
        (dataRows.map (digitalRowItem pf incl headers)) ∧
      parseDigitalIdSheet pf [] incl = []) ∧
    parseTradeIdSheet pfDemo piDemo tradeGridDemo =
      [⟨"P1", "Widget", none, "A", some 5⟩, ⟨"P4", "Blob", none, "C", none⟩] ∧
    parseDigitalIdSheet pfDemo digitalGridDemo false =
      [⟨"A", some 12, none, none⟩, ⟨"B", none, none, none⟩] := by
  refine ⟨?_, ?_, by decide, by decide⟩
  · intro pf pi headers dataRows
    exact ⟨fun it h => parseTradeIdSheet_keep h,
      parseTradeIdSheet_count pf pi headers dataRows,
      parseTradeIdSheet_sublist pf pi headers dataRows, rfl⟩
  · intro pf incl headers dataRows
    exact ⟨fun it h => parseDigitalIdSheet_keep h,
      parseDigitalIdSheet_count pf incl headers dataRows,
      parseDigitalIdSheet_sublist pf incl headers dataRows, rfl⟩

/-- Witness for C4 at the demo grid's first kept row. -/
theorem c4_parser_policy_witness :
    (⟨"P1", "Widget", none, "A", some 5⟩ : TradeItem).sku ≠ "" ∧
    (⟨"P1", "Widget", none, "A", some 5⟩ : TradeItem).price ≠ some (-1) :=
  (c4_parser_policy.1 pfDemo piDemo tradeHeaderDemo tradeRowsDemo).1
    ⟨"P1", "Widget", none, "A", some 5⟩ (by decide)

/-- C5: with a null or exactly-zero exchange rate,
`calculateIdentityPrice` returns `null` for every record and every
selection — it never throws (total function) and never produces an
infinite value (it returns `none` instead of dividing). -/
theorem c5_conversion_guard :
    ∀ (product : CombinedItem) (sel : Selection) (r : ℚ),
      calculateIdentityPrice none r product sel = none ∧
      calculateIdentityPrice (some 0) r product sel = none := by
  intro product sel r
  constructor <;>
    (cases sel <;> rcases hc : product.set2.cost with _ | c <;>
      simp [calculateIdentityPrice, gbpToEur, hc])

/-- C6: once the shared token is acquired, the batch handler returns
exactly one result per input item in input order (same length, matching
SKU at every index), each item's remote lookup is attempted (its search
event is in the trace) regardless of other items' failures, and a failed
lookup or update yields `{sku, success: false, error}`; scenario 5:
item 2's lookup fails yet items 1 and 3 are still applied. -/
theorem c6_batch_per_item :
    (∀ (env : ZohoEnv) (items : List ZohoBatchItem) (tok : String),
      env.token = Except.ok tok → items ≠ [] →
      ∃ rs, (batchUpdateHandler env items).1 = .results rs ∧
        rs.length = items.length ∧
        (∀ i (h1 : i < items.length) (h2 : i < rs.length),
          (rs.get ⟨i, h2⟩).sku = (items.get ⟨i, h1⟩).sku ∧
          rs.get ⟨i, h2⟩ = (processBatchItem env tok (items.get ⟨i, h1⟩)).1 ∧
          ZEvent.search (items.get ⟨i, h1⟩).sku ∈ (batchUpdateHandler env items).2) ∧
        (∀ it e, env.searchItemBySku tok it.sku = .error e →
          (processBatchItem env tok it).1 = ⟨it.sku, false, some e⟩) ∧
        (∀ it, env.searchItemBySku tok it.sku = .ok none →
          (processBatchItem env tok it).1 = ⟨it.sku, false, some "Item not found"⟩) ∧
        (∀ it itemId e, env.searchItemBySku tok it.sku = .ok (some itemId) →
          env.updateItemPrices tok itemId it.costPrice it.sellingPrice = .error e →
          (processBatchItem env tok it).1 = ⟨it.sku, false, some e⟩)) ∧
    batchUpdateHandler zohoEnvDemo itemsDemo =
      (.results [⟨"S1", true, none⟩, ⟨"S2", false, some "boom"⟩, ⟨"S3", true, none⟩],
       [.tokenReq, .search "S1", .update "id-S1", .search "S2",
        .search "S3", .update "id-S3"]) := by
  constructor
  · intro env items tok htok hne
    have h := batchUpdateHandler_ok htok hne
    refine ⟨items.map (fun it => (processBatchItem env tok it).1), ?_, by simp, ?_,
      fun it e he => processBatchItem_search_error he,
      fun it he => processBatchItem_not_found he,
      fun it itemId e h1 h2 => processBatchItem_update_error h1 h2⟩
    · rw [h]
    · intro i h1 h2
      refine ⟨?_, ?_, ?_⟩
      · simp [processBatchItem_sku]
      · simp
      · rw [h]
        simp only [List.mem_cons]
        right
        rw [List.mem_flatten]
        exact ⟨(processBatchItem env tok (items.get ⟨i, h1⟩)).2,
          List.mem_map.mpr ⟨items.get ⟨i, h1⟩, List.get_mem items i h1, rfl⟩,
          processBatchItem_search_mem env tok _⟩
  · decide

/-- Witness for C6 on the three-item demo batch. -/
theorem c6_batch_per_item_witness :
    ∃ rs, (batchUpdateHandler zohoEnvDemo itemsDemo).1 = .results rs ∧
      rs.length = itemsDemo.length :=
  (c6_batch_per_item.1 zohoEnvDemo itemsDemo "tok" rfl (by simp [itemsDemo])).imp
    (fun rs h => ⟨h.1, h.2.1⟩)

/-- C7: if token acquisition fails, the whole batch is aborted before
any item is attempted — the trace holds only the token request, no
search or update — and the failure is a single top-level error response,
never a per-item results list. -/
theorem c7_token_failure_aborts :
    ∀ (env : ZohoEnv) (items : List ZohoBatchItem) (e : String),
      items ≠ [] → env.token = .error e →
      batchUpdateHandler env items = (.topError e 500, [.tokenReq]) ∧
      (∀ ev ∈ (batchUpdateHandler env items).2, ev = ZEvent.tokenReq) ∧
      (∀ rs, (batchUpdateHandler env items).1 ≠ .results rs) := by
  intro env items e hne htok
  have h := batchUpdateHandler_token_error htok hne
  rw [h]
  refine ⟨rfl, ?_, ?_⟩
  · intro ev hev
    simpa using hev
  · intro rs
    simp

/-- Witness for C7 on the demo batch with a failing token. -/
theorem c7_token_failure_aborts_witness :
    batchUpdateHandler zohoEnvNoToken itemsDemo =
      (.topError "invalid_client" 500, [.tokenReq]) :=
  (c7_token_failure_aborts zohoEnvNoToken itemsDemo "invalid_client"
    (by simp [itemsDemo]) rfl).1


/-- C8 counterexample: propagating an empty item list does not return
an empty result list — the handler rejects it with a top-level error
response (`'Items array is required'`, HTTP 400). -/
theorem c8_counterexample :
    (batchUpdateHandler zohoEnvDemo []).1 ≠ BatchResponse.results [] := by
  decide

/-- C8 (amended): propagating an empty item list is rejected with the
single top-level error `'Items array is required'` (HTTP 400) without
contacting any external system (the event trace is empty). -/
theorem c8_amended :
    ∀ env : ZohoEnv, batchUpdateHandler env [] =
      (.topError "Items array is required" 400, []) := by
  intro env
  rfl

/-- C9: whenever a manual override is set for a key — including the
value `0` — `getIdentityPrice` returns the override rather than the
computed price; when no override is set it returns the computed price,
so absence is signalled only by the unset state, never by the numeric
value `0`; `updateIdentityFromInput` stores an override of `0`. -/
theorem c9_override_precedence :
    (∀ (ov : String → Option ℚ) (sels : String → Option Selection)
       (fx : Option ℚ) (r : ℚ) (sku : String) (product : CombinedItem) (v : ℚ),
      ov sku = some v →
      getIdentityPrice ov sels fx r sku product = some v) ∧
    (∀ (ov : String → Option ℚ) (sels : String → Option Selection)
       (fx : Option ℚ) (r : ℚ) (sku : String) (product : CombinedItem),
      ov sku = none →
      getIdentityPrice ov sels fx r sku product =
        calculateIdentityPrice fx r product ((sels sku).getD .empty)) ∧
    (∀ (pf : String → Option ℚ) (ov : String → Option ℚ) (sku val : String),
      pf val = some 0 → updateIdentityFromInput pf ov sku val sku = some 0) ∧
    getIdentityPrice ovDemo selsDemo (some (6/5)) 0 "A" prodDemo = some 0 ∧
    calculateIdentityPrice (some (6/5)) 0 prodDemo .digitalId = some 10 := by
  refine ⟨?_, ?_, ?_, ?_, ?_⟩
  · intro ov sels fx r sku product v h
    simp [getIdentityPrice, h]
  · intro ov sels fx r sku product h
    simp [getIdentityPrice, h]
  · intro pf ov sku val h
    simp [updateIdentityFromInput, h]
  · simp [getIdentityPrice, ovDemo]
  · simp [calculateIdentityPrice, prodDemo, gbpToEur]
    norm_num

/-- Witness for C9: an override of `0` on key `A` is returned as-is. -/
theorem c9_override_precedence_witness :
    getIdentityPrice ovDemo selsDemo (some 1) 0 "A" prodDemo = some 0 :=
  c9_override_precedence.1 ovDemo selsDemo (some 1) 0 "A" prodDemo 0 (by decide)

/-- C10: a cost cell that parses to the number `0` is recorded as null
by both parsers (`parseFloat(...) || null`), so no parsed record ever
carries cost `0`, the secondary lookup never yields cost `0`, and no
record of the reconciled pipeline output carries a cost of `0` on either
side; the demo row with cost cell `"0"` parses to a null cost. -/
theorem c10_zero_cost_coalesced :
    (∀ (pf : String → Option ℚ) (pi : String → Option ℤ)
       (rows : List (List String)),
      ∀ it ∈ parseTradeIdSheet pf pi rows, it.price ≠ some 0) ∧
    (∀ (pf : String → Option ℚ) (rows : List (List String)) (incl : Bool),
      ∀ it ∈ parseDigitalIdSheet pf rows incl, it.price ≠ some 0) ∧
    (∀ (s : List DigitalItem) (k : String), set2Lookup s k ≠ some 0) ∧
    (∀ (p : List TradeItem) (s : List DigitalItem),
      ∀ m ∈ combineData p s, m.set2.cost ≠ some 0) ∧
    (∀ (pf : String → Option ℚ) (pi : String → Option ℤ)
       (g1 g2 : List (List String)),
      ∀ m ∈ combineData (parseTradeIdSheet pf pi g1) (parseDigitalIdSheet pf g2 false),
        m.set1.cost ≠ some 0 ∧ m.set2.cost ≠ some 0) ∧
    tradeRowItem pfDemo piDemo tradeHeaderDemo ["P4", "Blob", "0", "C", "x"] =
      ⟨"P4", "Blob", none, "C", none⟩ := by
  refine ⟨fun pf pi rows it h => parseTradeIdSheet_price_ne_zero h,
    fun pf rows incl it h => parseDigitalIdSheet_price_ne_zero h,
    fun s k => set2Lookup_ne_some_zero s k,
    fun p s m hm => (combineData_mem hm).2.2.2 ▸ set2Lookup_ne_some_zero s m.sku,
    ?_, by decide⟩
  intro pf pi g1 g2 m hm
  have h := combineData_mem hm
  constructor
  · have hmem := List.mem_of_find?_eq_some h.2.2.1
    have := parseTradeIdSheet_price_ne_zero hmem
    simpa using this
  · exact h.2.2.2 ▸ set2Lookup_ne_some_zero _ m.sku

/-- Witness for C10: the kept demo record with unparseable cost has a
price distinct from `some 0`. -/
theorem c10_zero_cost_coalesced_witness :
    (⟨"P1", "Widget", none, "A", some 5⟩ : TradeItem).price ≠ some 0 :=
  c10_zero_cost_coalesced.1 pfDemo piDemo tradeGridDemo
    ⟨"P1", "Widget", none, "A", some 5⟩ (by decide)

end PriceDash
